import Mathlib

/-!
Shallow embedding of the YouTube OAuth and upload route handlers of
src/final_project/backend/api/youtube_routes.py.

External HTTP calls and database reads are modelled as oracles carried in an
environment record; database writes are modelled as an explicit effect trace.
Python exceptions are modelled with an Except type: HTTPException carries a
status code and detail string, any other exception is a pyExc with a message.
Python truthiness on optional strings, lists and numbers is embedded
explicitly where the source relies on it.
-/

namespace YtRoutes

/-- One element of a stored keywords array. The store may hold a plain string,
an object with a "keyword" field, or anything else (the source dispatches on
the shape of the first element, lines 217-220). -/
inductive KwEntry where
  | str (s : String)
  | obj (keyword : String)
  | other
deriving DecidableEq

/-- The per-user credential record as read by the handlers. Option fields model
document fields that may be absent (or stored as null). -/
structure UserRecord where
  id : String
  youtube_access_token : Option String := none
  youtube_refresh_token : Option String := none
  youtube_token_expiry : Option Nat := none
  youtube_connected : Bool := false
  youtube_channel_title : Option String := none
  youtube_channel_id : Option String := none
deriving DecidableEq

/-- The stored video document fields read by the handlers. -/
structure VideoRecord where
  id : String
  user_id : String
  title : Option String := none
  filename : String
  keywords_id : Option String := none
  youtube_uploaded : Bool := false
  youtube_video_id : Option String := none
  youtube_title : Option String := none
  youtube_description : Option String := none
  youtube_tags : Option (List KwEntry) := none
  youtube_redirect_attempted : Bool := false
deriving DecidableEq

/-- The stored keywords document (db.keywords). -/
structure KeywordDoc where
  keywords : List KwEntry
deriving DecidableEq

/-- Parsed JSON request body of the upload endpoints (lines 139-143, 431-434). -/
structure ReqBody where
  title : Option String := none
  description : Option String := none
  tags : Option (List String) := none
  privacy_status : String := "private"
deriving DecidableEq

/-- JSON body of a successful token-refresh response (lines 189, 480, 586). -/
structure RefreshData where
  access_token : String
  expires_in : Nat
deriving DecidableEq

/-- JSON body of a successful code-for-token exchange (line 74). -/
structure TokenResp where
  access_token : String
  refresh_token : Option String := none
  expires_in : Nat
deriving DecidableEq

/-- One item of the channel-lookup response (lines 104-114). -/
structure ChannelItem where
  id : String
  title : String
deriving DecidableEq

/-- Outcome of the channel-lookup GET (lines 98-101): either the request raised,
or it returned a status code and a parsed items array. -/
inductive ChannelOutcome where
  | raised (msg : String)
  | status (code : Nat) (items : List ChannelItem)
deriving DecidableEq

/-- A Python exception: an HTTPException with status code and detail, or any
other exception carrying its message. -/
inductive Exn where
  | httpExc (code : Nat) (detail : String)
  | pyExc (msg : String)
deriving DecidableEq

/-- A database write performed by a handler, in order of execution. -/
inductive Effect where
  | refreshCall
  | userTokenUpdate (access : String) (expiry : Nat)
  | storeTokens (access : String) (refresh : Option String) (expiry : Nat)
  | storeChannel (title : String) (channelId : String)
  | videoUpdate (ytid : String) (title : String) (descr : String) (tags : List KwEntry)
  | videoUpdateSimulated (ytid : String)
  | videoRedirectUpdate
  | providerUpload
deriving DecidableEq

/-- How a database write changes the stored user record. `storeTokens` is the
callback write of lines 80-89, which also sets `youtube_connected := true`;
`userTokenUpdate` is the refresh write of lines 192-199 / 483-490 / 590-597,
which touches only the access token and expiry. -/
def applyUserEffect (u : UserRecord) : Effect → UserRecord
  | Effect.userTokenUpdate a e =>
      { u with youtube_access_token := some a, youtube_token_expiry := some e }
  | Effect.storeTokens a r e =>
      { u with youtube_access_token := some a, youtube_refresh_token := r,
               youtube_token_expiry := some e, youtube_connected := true }
  | Effect.storeChannel t i =>
      { u with youtube_channel_title := some t, youtube_channel_id := some i }
  | _ => u

def applyUserEffects (effs : List Effect) (u : UserRecord) : UserRecord :=
  effs.foldl applyUserEffect u

/-- How a database write changes the stored video record (lines 286-297,
386-394, 508-515). -/
def applyVideoEffect (v : VideoRecord) : Effect → VideoRecord
  | Effect.videoUpdate yt t d tg =>
      { v with youtube_uploaded := true, youtube_video_id := some yt,
               youtube_title := some t, youtube_description := some d,
               youtube_tags := some tg }
  | Effect.videoUpdateSimulated yt =>
      { v with youtube_uploaded := true, youtube_video_id := some yt }
  | Effect.videoRedirectUpdate =>
      { v with youtube_redirect_attempted := true }
  | _ => v

def applyVideoEffects (effs : List Effect) (v : VideoRecord) : VideoRecord :=
  effs.foldl applyVideoEffect v

/-- Python truthiness of an optional string: None and the empty string are
falsy. -/
def pyTruthyStr (o : Option String) : Bool :=
  match o with
  | none => false
  | some s => s ≠ ""

/-- Python `a or b` on an optional string `a`: the default is used when `a` is
None or empty. -/
def pyOrStr (v : Option String) (d : String) : String :=
  match v with
  | none => d
  | some s => if s = "" then d else s

/-- Python `tags or keywords` (lines 233, 359): caller tags are used when
present and non-empty, else the keywords list. Caller-supplied tags are plain
JSON strings. -/
def pyOrTags (t : Option (List String)) (kw : List KwEntry) : List KwEntry :=
  match t with
  | none => kw
  | some ts => if ts.isEmpty then kw else ts.map KwEntry.str

/-- Python `l[:n] if l else []` (lines 259, 294, 307, 408, 528). -/
def pyTrunc (n : Nat) (l : List KwEntry) : List KwEntry :=
  if l.isEmpty then [] else l.take n

/-- Python os.path.join of the upload directory and the stored filename
(lines 236, 363). -/
def pyPathJoin (a b : String) : String :=
  if b.startsWith "/" then b
  else if a = "" then b
  else if a.endsWith "/" then a ++ b
  else a ++ "/" ++ b

/-- The list comprehension of lines 218/336: extract the "keyword" field of
every element; a non-object element raises, yielding none. -/
def extractObjKeywords : List KwEntry → Option (List String)
  | [] => some []
  | KwEntry.obj k :: rest => (extractObjKeywords rest).map (fun l => k :: l)
  | _ :: _ => none

/-- All elements as plain strings; none when some element is not a string
(a join over such a list raises TypeError). -/
def asStrs : List KwEntry → Option (List String)
  | [] => some []
  | KwEntry.str s :: rest => (asStrs rest).map (fun l => s :: l)
  | _ :: _ => none

/-- The value bound to `keywords` by lines 211-223 (and by the dead block of
lines 328-349, which computes the same value): dispatch on the shape of the
first element; a lookup error or an extraction error is swallowed by the
enclosing except and leaves the empty list. -/
def resolveKeywords (keywords_id : Option String)
    (lookup : Except String (Option KeywordDoc)) : List KwEntry :=
  match keywords_id with
  | none => []
  | some kid =>
    if kid = "" then []
    else
      match lookup with
      | Except.error _ => []
      | Except.ok none => []
      | Except.ok (some d) =>
        match d.keywords with
        | [] => []
        | first :: rest =>
          match first with
          | KwEntry.obj _ =>
            match extractObjKeywords (first :: rest) with
            | some l => l.map KwEntry.str
            | none => []
          | KwEntry.str _ => first :: rest
          | KwEntry.other => []

/-- The value bound to `keyword_text` by line 229/355, as an optional string:
none models the TypeError raised by joining a list holding a non-string. -/
def keywordText (kw : List KwEntry) : Option String :=
  if kw.isEmpty then some "SEO optimized content"
  else (asStrs (kw.take 5)).map (String.intercalate ", ")

/-- Oracle environment for the two upload endpoints: the parsed request body,
the scoped video lookup of line 162/453 (error models a raised lookup, e.g. an
invalid ObjectId string), the keywords lookup of line 214, the outcome of the
token-refresh POST, the filesystem existence check, the configured upload
directory, the outcome of the provider insert call (ok carries the assigned
video id, error the HttpError body), and whether the best-effort redirect
bookkeeping write of lines 508-515 succeeds. -/
structure YtEnv where
  now : Nat
  uploadDir : String
  reqBody : Except String ReqBody
  videoLookup : Except String (Option VideoRecord)
  kwDoc : Except String (Option KeywordDoc)
  refreshResp : Except String RefreshData
  fileExists : String → Bool
  uploadResp : Except String String
  redirectWriteOk : Bool := true

/-- Payload of the success response of the live upload path (lines 299-308). -/
structure UploadSuccess where
  message : String
  video_id : String
  youtube_video_id : String
  youtube_url : String
  youtube_title : String
  youtube_description : String
  youtube_tags : List KwEntry
deriving DecidableEq

/-- Payload of the success response of the dead simulated path (lines 402-409). -/
structure SimSuccess where
  message : String
  video_id : String
  youtube_video_id : String
  youtube_title : String
  youtube_tags : List KwEntry
deriving DecidableEq

/-- Overall outcome of the upload endpoint: a live success, a success of the
dead simulated block, an HTTPException response, or an exception escaping the
handler uncaught. -/
inductive UploadOutcome where
  | ok (r : UploadSuccess)
  | okSimulated (r : SimSuccess)
  | httpError (code : Nat) (detail : String)
  | uncaught (msg : String)
deriving DecidableEq

/-- Lines 176-208 / 467-499: if the stored expiry (read with default 0) is in
the past, post a refresh request. A missing refresh token raises a KeyError at
line 184/475 before any request is made; the except clause turns any failure
into a 401. On success the database write updates the token and expiry, and
the in-memory user keeps only the new access token (line 202/493). -/
def refreshStep (env : YtEnv) (u : UserRecord) :
    Except Exn UserRecord × List Effect :=
  if u.youtube_token_expiry.getD 0 < env.now then
    match u.youtube_refresh_token with
    | none =>
        (Except.error (Exn.httpExc 401
          "Failed to refresh YouTube token: KeyError: youtube_refresh_token"), [])
    | some _ =>
        match env.refreshResp with
        | Except.error m =>
            (Except.error (Exn.httpExc 401
              ("Failed to refresh YouTube token: " ++ m)), [Effect.refreshCall])
        | Except.ok rd =>
            (Except.ok { u with youtube_access_token := some rd.access_token },
             [Effect.refreshCall,
              Effect.userTokenUpdate rd.access_token (env.now + rd.expires_in)])
  else (Except.ok u, [])

/-- Lines 225-316 with the keywords list already resolved: compute the
effective metadata, check the media file, build credentials (subscripting the
token fields, which raises KeyError when a field is absent, lines 245-246),
and perform the provider insert. -/
def afterKeywords (env : YtEnv) (u2 : UserRecord) (req : ReqBody)
    (video : VideoRecord) (vid : String) (keywords : List KwEntry) :
    Except Exn UploadSuccess × List Effect :=
  let video_title := pyOrStr req.title (video.title.getD "Untitled Video")
  match keywordText keywords with
  | none => (Except.error (Exn.pyExc "TypeError: expected str instance"), [])
  | some kt =>
    let video_description :=
      pyOrStr req.description ("Video analyzed with SEO keywords: " ++ kt)
    let video_tags := pyOrTags req.tags keywords
    if env.fileExists (pyPathJoin env.uploadDir video.filename) = false then
      (Except.error (Exn.httpExc 404 "Video file not found"), [])
    else
      match u2.youtube_access_token, u2.youtube_refresh_token with
      | some _, some _ =>
        match env.uploadResp with
        | Except.error content =>
            (Except.error (Exn.httpExc 500 ("YouTube upload failed: " ++ content)),
             [Effect.providerUpload])
        | Except.ok ytid =>
            (Except.ok
              { message := "Video uploaded to YouTube successfully",
                video_id := vid,
                youtube_video_id := ytid,
                youtube_url := "https://www.youtube.com/watch?v=" ++ ytid,
                youtube_title := video_title,
                youtube_description := video_description,
                youtube_tags := pyTrunc 30 video_tags },
             [Effect.providerUpload,
              Effect.videoUpdate ytid video_title video_description
                (pyTrunc 30 video_tags)])
      | _, _ => (Except.error (Exn.pyExc "KeyError: youtube token field"), [])

/-- Lines 210-316: resolve keywords then continue. -/
def afterRefresh (env : YtEnv) (u2 : UserRecord) (req : ReqBody)
    (video : VideoRecord) (vid : String) :
    Except Exn UploadSuccess × List Effect :=
  afterKeywords env u2 req video vid
    (resolveKeywords video.keywords_id env.kwDoc)

/-- The try body of upload_to_youtube (lines 137-316): parse the request body
(a parse failure is a 400), require a connected user (line 154), look up the
video — note that the 404 raised at line 164 is caught by the enclosing
`except Exception` of line 168 and re-wrapped as a 500 —, run the refresh
step, then the rest of the pipeline. -/
def upload_body (env : YtEnv) (u : UserRecord) (vid : String) :
    Except Exn UploadSuccess × List Effect :=
  match env.reqBody with
  | Except.error m =>
      (Except.error (Exn.httpExc 400 ("Invalid request body: " ++ m)), [])
  | Except.ok req =>
    if u.youtube_connected = false then
      (Except.error (Exn.httpExc 401 "YouTube account not connected"), [])
    else
      match env.videoLookup with
      | Except.error m =>
          (Except.error (Exn.httpExc 500 ("Error retrieving video: " ++ m)), [])
      | Except.ok none =>
          (Except.error (Exn.httpExc 500
            "Error retrieving video: 404: Video not found"), [])
      | Except.ok (some video) =>
        match refreshStep env u with
        | (Except.error e, effs) => (Except.error e, effs)
        | (Except.ok u2, effs) =>
          match afterRefresh env u2 req video vid with
          | (r, effs2) => (r, effs ++ effs2)

/-- The dead simulated-upload block, lines 327-409, translated as written: it
re-reads the locals of the enclosing scope (unbound when the body failed
before binding them, hence NameError), recomputes keywords and metadata,
checks the file — the 404 raised at line 366 is caught by the except of line
370 and re-wrapped as a 500 —, fabricates a simulated video id and writes it
to the video record. -/
def simulatedBlock (env : YtEnv) (vid : String) :
    Except Exn SimSuccess × List Effect :=
  match env.reqBody with
  | Except.error _ => (Except.error (Exn.pyExc "NameError: title"), [])
  | Except.ok req =>
    match env.videoLookup with
    | Except.error _ => (Except.error (Exn.pyExc "NameError: video"), [])
    | Except.ok none => (Except.error (Exn.pyExc "NameError: video"), [])
    | Except.ok (some video) =>
      let keywords := resolveKeywords video.keywords_id env.kwDoc
      let video_title := pyOrStr req.title (video.title.getD "Untitled Video")
      match keywordText keywords with
      | none => (Except.error (Exn.pyExc "TypeError: expected str instance"), [])
      | some kt =>
        let _video_description :=
          pyOrStr req.description ("Video analyzed with SEO keywords: " ++ kt)
        let video_tags := pyOrTags req.tags keywords
        if env.fileExists (pyPathJoin env.uploadDir video.filename) = false then
          (Except.error (Exn.httpExc 500
            "Error accessing video file: 404: Video file not found"), [])
        else
          let ytid := "simulated-yt-" ++ vid.take 8
          (Except.ok
            { message := "Video uploaded to YouTube successfully",
              video_id := vid,
              youtube_video_id := ytid,
              youtube_title := video_title,
              youtube_tags := pyTrunc 5 video_tags },
           [Effect.videoUpdateSimulated ytid])

/-- Lines 321-325: the `except Exception` handler prints and unconditionally
raises a 500. -/
def handlerRaise (m : String) : Except Exn Unit :=
  Except.error (Exn.httpExc 500 ("Failed to upload to YouTube: " ++ m))

/-- The full `except Exception` handler of lines 320-409: the raise of line
322, sequenced with the simulated block that follows it in the same suite. -/
def handlerSeq (env : YtEnv) (vid : String) (m : String) :
    Except Exn SimSuccess × List Effect :=
  match handlerRaise m with
  | Except.error e => (Except.error e, [])
  | Except.ok _ => simulatedBlock env vid

/-- The upload_to_youtube handler, lines 129-419: run the try body; an
HTTPException is re-raised by line 318; any other exception enters the handler
of line 320, whose own raise propagates out of the try statement (the second
except chain of lines 411-419 belongs to the same try and is never consulted
for exceptions raised inside a handler). -/
def upload_to_youtube (env : YtEnv) (u : UserRecord) (vid : String) :
    UploadOutcome × List Effect :=
  match upload_body env u vid with
  | (Except.ok r, effs) => (UploadOutcome.ok r, effs)
  | (Except.error (Exn.httpExc c d), effs) => (UploadOutcome.httpError c d, effs)
  | (Except.error (Exn.pyExc m), effs) =>
    match handlerSeq env vid m with
    | (Except.ok s, effs2) => (UploadOutcome.okSimulated s, effs ++ effs2)
    | (Except.error (Exn.httpExc c d), effs2) =>
        (UploadOutcome.httpError c d, effs ++ effs2)
    | (Except.error (Exn.pyExc m2), effs2) =>
        (UploadOutcome.uncaught m2, effs ++ effs2)

/-- Payload of the success response of get_youtube_upload_url (lines 521-529). -/
structure RedirectSuccess where
  message : String
  redirectUrl : String
  video_id : String
  youtube_title : String
  youtube_description : String
  youtube_tags : List String
deriving DecidableEq

/-- Overall outcome of get_youtube_upload_url. -/
inductive RedirectOutcome where
  | ok (r : RedirectSuccess)
  | httpError (code : Nat) (detail : String)
deriving DecidableEq

/-- Python `tags[:30] if tags else []` on plain string lists (line 528). -/
def pyTruncStrs (n : Nat) (l : List String) : List String :=
  if l.isEmpty then [] else l.take n

/-- The try body of get_youtube_upload_url (lines 428-529): parse the body
with defaults (lines 431-434), require a connected user, look up the video
(the raised 404 again re-wrapped as a 500 by the except of line 459), run the
same refresh step, then best-effort mark the record and return the fixed
upload-page URL with the caller metadata. -/
def redirect_body (env : YtEnv) (u : UserRecord) (vid : String) :
    Except Exn RedirectSuccess × List Effect :=
  match env.reqBody with
  | Except.error m =>
      (Except.error (Exn.httpExc 400 ("Invalid request body: " ++ m)), [])
  | Except.ok req =>
    let title := req.title.getD "Untitled Video"
    let description := req.description.getD ""
    let tags := req.tags.getD []
    if u.youtube_connected = false then
      (Except.error (Exn.httpExc 401 "YouTube account not connected"), [])
    else
      match env.videoLookup with
      | Except.error m =>
          (Except.error (Exn.httpExc 500 ("Error retrieving video: " ++ m)), [])
      | Except.ok none =>
          (Except.error (Exn.httpExc 500
            "Error retrieving video: 404: Video not found"), [])
      | Except.ok (some _) =>
        match refreshStep env u with
        | (Except.error e, effs) => (Except.error e, effs)
        | (Except.ok _, effs) =>
          let effs2 := if env.redirectWriteOk then [Effect.videoRedirectUpdate] else []
          (Except.ok
            { message := "YouTube upload URL generated successfully",
              redirectUrl := "https://www.youtube.com/upload",
              video_id := vid,
              youtube_title := title,
              youtube_description := description,
              youtube_tags := pyTruncStrs 30 tags },
           effs ++ effs2)

/-- The get_youtube_upload_url handler, lines 421-539. -/
def get_youtube_upload_url (env : YtEnv) (u : UserRecord) (vid : String) :
    RedirectOutcome × List Effect :=
  match redirect_body env u vid with
  | (Except.ok r, effs) => (RedirectOutcome.ok r, effs)
  | (Except.error (Exn.httpExc c d), effs) => (RedirectOutcome.httpError c d, effs)
  | (Except.error (Exn.pyExc m), effs) =>
      (RedirectOutcome.httpError 500
        ("Failed to generate YouTube upload URL: " ++ m), effs)

/-- Oracle environment for the callback: the outcome of the code-for-token
POST (error models a network failure or a non-2xx raise_for_status) and the
outcome of the channel-lookup GET. -/
structure CallbackEnv where
  now : Nat
  tokenResp : Except String TokenResp
  channelResp : ChannelOutcome

/-- The JSON payload returned by the callback. -/
structure CbResult where
  success : Bool
  message : Option String := none
  error : Option String := none
deriving DecidableEq

/-- The youtube_callback handler, lines 45-127: reject a truthy error
parameter, then a missing (or empty, hence falsy) code or state, then a state
that differs from the current user id. Exchange the code; the token write of
lines 80-89 persists the tokens with connected true. Then the best-effort
channel lookup: a 200 with a non-empty items array also stores the channel and
reports its title; any other status falls through to the generic success; a
raised exception is caught by the except of line 125, which returns a failure
payload although the tokens were already persisted. -/
def youtube_callback (code state error : Option String) (u : UserRecord)
    (env : CallbackEnv) : CbResult × List Effect :=
  if pyTruthyStr error then
    ({ success := false, error := error }, [])
  else if pyTruthyStr code = false || pyTruthyStr state = false then
    ({ success := false, error := some "Missing code or state parameter" }, [])
  else if state ≠ some u.id then
    ({ success := false, error := some "Invalid state parameter" }, [])
  else
    match env.tokenResp with
    | Except.error m => ({ success := false, error := some m }, [])
    | Except.ok t =>
      let effs := [Effect.storeTokens t.access_token t.refresh_token
        (env.now + t.expires_in)]
      match env.channelResp with
      | ChannelOutcome.raised m => ({ success := false, error := some m }, effs)
      | ChannelOutcome.status c items =>
        if c = 200 then
          match items with
          | [] =>
              ({ success := true,
                 message := some "YouTube account connected successfully" }, effs)
          | item :: _ =>
              ({ success := true,
                 message := some ("Connected to YouTube channel: " ++ item.title) },
               effs ++ [Effect.storeChannel item.title item.id])
        else
          ({ success := true,
             message := some "YouTube account connected successfully" }, effs)

/-- Oracle environment for the status endpoint and the refresh helper. -/
structure StatusEnv where
  now : Nat
  refreshResp : Except String RefreshData

/-- The JSON payload returned by the status endpoint. -/
structure StatusResult where
  connected : Bool
  channel_title : String
deriving DecidableEq

/-- refresh_youtube_token, lines 569-602: a missing or falsy refresh token
returns None without any request; a failed POST returns None; on success the
database write stores the new token and expiry and the new token is returned. -/
def refresh_youtube_token (env : StatusEnv) (u : UserRecord) :
    Option String × List Effect :=
  match u.youtube_refresh_token with
  | none => (none, [])
  | some rt =>
    if rt = "" then (none, [])
    else
      match env.refreshResp with
      | Except.error _ => (none, [])
      | Except.ok rd =>
          (some rd.access_token,
           [Effect.userTokenUpdate rd.access_token (env.now + rd.expires_in)])

/-- The youtube_status handler, lines 541-567: read the stored flag and
channel title; when connected with a truthy stored expiry that is in the past
and a truthy refresh token, attempt one silent refresh, and flip the reported
flag to false when it yields no token; the response clears the title when not
connected. The stored record is only touched by the refresh write on success. -/
def youtube_status (env : StatusEnv) (u : UserRecord) :
    StatusResult × List Effect :=
  let connected0 := u.youtube_connected
  let channel_title := u.youtube_channel_title.getD ""
  if connected0 && (u.youtube_token_expiry.getD 0 != 0)
      && decide (u.youtube_token_expiry.getD 0 < env.now) then
    if pyTruthyStr u.youtube_refresh_token then
      match refresh_youtube_token env u with
      | (none, effs) =>
          ({ connected := false, channel_title := "" }, effs)
      | (some _, effs) =>
          ({ connected := connected0,
             channel_title := if connected0 then channel_title else "" }, effs)
    else
      ({ connected := connected0,
         channel_title := if connected0 then channel_title else "" }, [])
  else
    ({ connected := connected0,
       channel_title := if connected0 then channel_title else "" }, [])

/-- True exactly on the database write performed by the dead simulated block. -/
def Effect.isSimWrite : Effect → Bool
  | Effect.videoUpdateSimulated _ => true
  | _ => false

/-- True exactly on a success produced by the dead simulated block. -/
def UploadOutcome.isSim : UploadOutcome → Bool
  | UploadOutcome.okSimulated _ => true
  | _ => false

/-- The description actually submitted by an upload call: whenever the call
succeeds, the returned description is d, and whenever a video-record write of
upload outcome fields occurs, the written description is d. -/
def submittedDescription (out : UploadOutcome × List Effect) (d : String) : Prop :=
  (∀ r, out.1 = UploadOutcome.ok r → r.youtube_description = d) ∧
  (∀ yt t d2 tg, Effect.videoUpdate yt t d2 tg ∈ out.2 → d2 = d)

/-- The tags actually submitted by an upload call, in the same sense. -/
def submittedTags (out : UploadOutcome × List Effect) (tg : List KwEntry) : Prop :=
  (∀ r, out.1 = UploadOutcome.ok r → r.youtube_tags = tg) ∧
  (∀ yt t d tg2, Effect.videoUpdate yt t d tg2 ∈ out.2 → tg2 = tg)

theorem pyTrunc_eq_take (n : Nat) (l : List KwEntry) : pyTrunc n l = l.take n := by
  unfold pyTrunc
  split
  · simp_all
  · rfl

theorem extractObjKeywords_map (l : List String) :
    extractObjKeywords (l.map KwEntry.obj) = some l := by
  induction l with
  | nil => rfl
  | cons a rest ih => simp [extractObjKeywords, ih]

theorem asStrs_map (l : List String) : asStrs (l.map KwEntry.str) = some l := by
  induction l with
  | nil => rfl
  | cons a rest ih => simp [asStrs, ih]

/-- Every effect of the refresh step is the refresh request itself or the
token write. -/
theorem refreshStep_effs (env : YtEnv) (u : UserRecord) :
    ∀ e ∈ (refreshStep env u).2,
      e = Effect.refreshCall ∨ ∃ a x, e = Effect.userTokenUpdate a x := by
  unfold refreshStep
  repeat' split
  all_goals simp

/-- The effect list of the post-refresh pipeline is empty, the provider call
alone, or the provider call followed by the video write. -/
theorem afterKeywords_effs (env : YtEnv) (u2 : UserRecord) (req : ReqBody)
    (video : VideoRecord) (vid : String) (kws : List KwEntry) :
    (afterKeywords env u2 req video vid kws).2 = [] ∨
    (afterKeywords env u2 req video vid kws).2 = [Effect.providerUpload] ∨
    ∃ yt t d tg, (afterKeywords env u2 req video vid kws).2 =
      [Effect.providerUpload, Effect.videoUpdate yt t d tg] := by
  unfold afterKeywords
  repeat' split
  all_goals simp

/-- Characterization of a successful post-refresh pipeline run. -/
theorem afterKeywords_ok (env : YtEnv) (u2 : UserRecord) (req : ReqBody)
    (video : VideoRecord) (vid : String) (kws : List KwEntry)
    (r : UploadSuccess) (effs : List Effect)
    (h : afterKeywords env u2 req video vid kws = (Except.ok r, effs)) :
    (keywordText kws).isSome = true ∧
    r.youtube_description = pyOrStr req.description
      ("Video analyzed with SEO keywords: " ++ (keywordText kws).getD "") ∧
    r.youtube_tags = pyTrunc 30 (pyOrTags req.tags kws) ∧
    effs = [Effect.providerUpload,
      Effect.videoUpdate r.youtube_video_id r.youtube_title
        r.youtube_description r.youtube_tags] := by
  unfold afterKeywords at h
  repeat' split at h
  all_goals simp_all
  all_goals aesop

/-- The except-Exception handler always terminates at its own raise. -/
theorem handlerSeq_eq (env : YtEnv) (vid m : String) :
    handlerSeq env vid m =
      (Except.error (Exn.httpExc 500 ("Failed to upload to YouTube: " ++ m)), []) :=
  rfl

/-- A failed post-refresh pipeline run wrote nothing to the video record. -/
theorem afterKeywords_err (env : YtEnv) (u2 : UserRecord) (req : ReqBody)
    (video : VideoRecord) (vid : String) (kws : List KwEntry)
    (e : Exn) (effs : List Effect)
    (h : afterKeywords env u2 req video vid kws = (Except.error e, effs)) :
    effs = [] ∨ effs = [Effect.providerUpload] := by
  unfold afterKeywords at h
  repeat' split at h
  all_goals simp_all

/-- Inversion principle for the upload handler: a live success, and any video
write in the trace, come from a successful run of the post-refresh pipeline
after a successful refresh step. -/
theorem upload_inversion (env : YtEnv) (u : UserRecord) (vid : String)
    (req : ReqBody) (v : VideoRecord)
    (hb : env.reqBody = Except.ok req)
    (hvl : env.videoLookup = Except.ok (some v)) :
    (∀ r, (upload_to_youtube env u vid).1 = UploadOutcome.ok r →
      ∃ u2 effs0 effsA, refreshStep env u = (Except.ok u2, effs0) ∧
        afterKeywords env u2 req v vid (resolveKeywords v.keywords_id env.kwDoc)
          = (Except.ok r, effsA))
    ∧ (∀ yt t d tg,
        Effect.videoUpdate yt t d tg ∈ (upload_to_youtube env u vid).2 →
      ∃ u2 effs0 r effsA, refreshStep env u = (Except.ok u2, effs0) ∧
        afterKeywords env u2 req v vid (resolveKeywords v.keywords_id env.kwDoc)
          = (Except.ok r, effsA) ∧
        Effect.videoUpdate yt t d tg ∈ effsA) := by
  by_cases hc : u.youtube_connected = false
  · have hu : upload_to_youtube env u vid =
        (UploadOutcome.httpError 401 "YouTube account not connected", []) := by
      simp [upload_to_youtube, upload_body, hb, hc]
    constructor
    · intro r hr
      rw [hu] at hr
      simp at hr
    · intro yt t d tg hm
      rw [hu] at hm
      simp at hm
  · have hc2 : u.youtube_connected = true := by simpa using hc
    rcases h0 : refreshStep env u with ⟨res0, effs0⟩
    have hnv0 : ∀ yt t d tg, Effect.videoUpdate yt t d tg ∉ effs0 := by
      intro yt t d tg hm
      have := refreshStep_effs env u (Effect.videoUpdate yt t d tg) (by rw [h0]; exact hm)
      simp at this
    cases res0 with
    | error e =>
      have hub : upload_body env u vid = (Except.error e, effs0) := by
        simp [upload_body, hb, hc2, hvl, h0]
      cases e with
      | httpExc c d =>
        have hu : upload_to_youtube env u vid = (UploadOutcome.httpError c d, effs0) := by
          simp [upload_to_youtube, hub]
        constructor
        · intro r hr
          rw [hu] at hr
          simp at hr
        · intro yt t d tg hm
          rw [hu] at hm
          exact absurd hm (hnv0 yt t d tg)
      | pyExc m =>
        have hu : upload_to_youtube env u vid =
            (UploadOutcome.httpError 500 ("Failed to upload to YouTube: " ++ m),
             effs0 ++ []) := by
          simp [upload_to_youtube, hub, handlerSeq_eq]
        constructor
        · intro r hr
          rw [hu] at hr
          simp at hr
        · intro yt t d tg hm
          rw [hu] at hm
          simp at hm
          exact absurd hm (hnv0 yt t d tg)
    | ok u2 =>
      rcases hA : afterKeywords env u2 req v vid
          (resolveKeywords v.keywords_id env.kwDoc) with ⟨resA, effsA⟩
      have hub : upload_body env u vid = (resA, effs0 ++ effsA) := by
        simp [upload_body, afterRefresh, hb, hc2, hvl, h0, hA]
      cases resA with
      | ok r =>
        have hu : upload_to_youtube env u vid = (UploadOutcome.ok r, effs0 ++ effsA) := by
          simp [upload_to_youtube, hub]
        constructor
        · intro r2 hr
          rw [hu] at hr
          simp at hr
          exact ⟨u2, effs0, effsA, rfl, by rw [hA, hr]⟩
        · intro yt t d tg hm
          rw [hu] at hm
          simp at hm
          rcases hm with hm | hm
          · exact absurd hm (hnv0 yt t d tg)
          · exact ⟨u2, effs0, r, effsA, rfl, hA, hm⟩
      | error e =>
        have hnvA : ∀ yt t d tg, Effect.videoUpdate yt t d tg ∉ effsA := by
          intro yt t d tg hm
          rcases afterKeywords_err env u2 req v vid
              (resolveKeywords v.keywords_id env.kwDoc) e effsA hA with h1 | h1
          all_goals rw [h1] at hm
          all_goals simp at hm
        cases e with
        | httpExc c d =>
          have hu : upload_to_youtube env u vid =
              (UploadOutcome.httpError c d, effs0 ++ effsA) := by
            simp [upload_to_youtube, hub]
          constructor
          · intro r hr
            rw [hu] at hr
            simp at hr
          · intro yt t d tg hm
            rw [hu] at hm
            simp at hm
            rcases hm with hm | hm
            · exact absurd hm (hnv0 yt t d tg)
            · exact absurd hm (hnvA yt t d tg)
        | pyExc m =>
          have hu : upload_to_youtube env u vid =
              (UploadOutcome.httpError 500 ("Failed to upload to YouTube: " ++ m),
               (effs0 ++ effsA) ++ []) := by
            simp [upload_to_youtube, hub, handlerSeq_eq]
          constructor
          · intro r hr
            rw [hu] at hr
            simp at hr
          · intro yt t d tg hm
            rw [hu] at hm
            simp at hm
            rcases hm with hm | hm
            · exact absurd hm (hnv0 yt t d tg)
            · exact absurd hm (hnvA yt t d tg)

/-- Claim C1: for every callback invocation that reaches the CSRF guard (no
truthy error parameter, a truthy code, a non-empty state) with a state that is
not exactly string-equal to the current user id, youtube_callback returns the
state-mismatch failure payload and performs no database write, so no token
field is persisted to the credential record. -/
theorem callback_state_mismatch (code state error : Option String)
    (u : UserRecord) (env : CallbackEnv) (s : String)
    (herr : pyTruthyStr error = false)
    (hcode : pyTruthyStr code = true)
    (hstate : state = some s) (hs : s ≠ "") (hne : s ≠ u.id) :
    youtube_callback code state error u env =
      ({ success := false, error := some "Invalid state parameter" }, []) := by
  have hst : pyTruthyStr state = true := by
    rw [hstate]
    simp [pyTruthyStr, hs]
  unfold youtube_callback
  rw [herr, hcode, hst, hstate]
  simp [hne]

/-- Concrete instance of callback_state_mismatch. -/
theorem callback_state_mismatch_witness :
    pyTruthyStr (none : Option String) = false ∧
    pyTruthyStr (some "authcode") = true ∧
    ("someoneelse" : String) ≠ "" ∧ ("someoneelse" : String) ≠ "u1" ∧
    youtube_callback (some "authcode") (some "someoneelse") none { id := "u1" }
      { now := 10, tokenResp := Except.error "unused",
        channelResp := ChannelOutcome.status 0 [] } =
      ({ success := false, error := some "Invalid state parameter" }, []) :=
  ⟨rfl, by decide, by decide, by decide,
   callback_state_mismatch (some "authcode") (some "someoneelse") none
     { id := "u1" }
     { now := 10, tokenResp := Except.error "unused",
       channelResp := ChannelOutcome.status 0 [] }
     "someoneelse" rfl (by decide) rfl (by decide) (by decide)⟩

/-- Claim C2: for an upload call by a connected user with a found video, an
expired stored token and a refresh token present: when the refresh succeeds it
happens exactly once and is the first outbound effect, hence before any
provider upload call; when the refresh fails the handler answers 401 with the
failed-refresh detail and the provider upload endpoint is never invoked. -/
theorem upload_refresh_gate (env : YtEnv) (u : UserRecord) (vid : String)
    (req : ReqBody) (v : VideoRecord) (rt : String)
    (hconn : u.youtube_connected = true)
    (hb : env.reqBody = Except.ok req)
    (hvl : env.videoLookup = Except.ok (some v))
    (hexp : u.youtube_token_expiry.getD 0 < env.now)
    (hrt : u.youtube_refresh_token = some rt) :
    (∀ rd, env.refreshResp = Except.ok rd →
      ∃ rest, (upload_to_youtube env u vid).2 = Effect.refreshCall :: rest ∧
        Effect.refreshCall ∉ rest)
    ∧ (∀ m, env.refreshResp = Except.error m →
      (upload_to_youtube env u vid).1 = UploadOutcome.httpError 401
        ("Failed to refresh YouTube token: " ++ m) ∧
      Effect.providerUpload ∉ (upload_to_youtube env u vid).2) := by
  obtain ⟨uid, uat, urt, uexp, ucon, uct, uci⟩ := u
  simp only at hconn hrt hexp
  subst hconn
  subst hrt
  constructor
  · intro rd hrd
    have hrs : refreshStep env ⟨uid, uat, some rt, uexp, true, uct, uci⟩ =
        (Except.ok ⟨uid, some rd.access_token, some rt, uexp, true, uct, uci⟩,
         [Effect.refreshCall,
          Effect.userTokenUpdate rd.access_token (env.now + rd.expires_in)]) := by
      simp [refreshStep, hrd, hexp]
    rcases hA : afterKeywords env
        ⟨uid, some rd.access_token, some rt, uexp, true, uct, uci⟩ req v vid
        (resolveKeywords v.keywords_id env.kwDoc) with ⟨resA, effsA⟩
    have hub : upload_body env ⟨uid, uat, some rt, uexp, true, uct, uci⟩ vid =
        (resA, [Effect.refreshCall,
          Effect.userTokenUpdate rd.access_token (env.now + rd.expires_in)] ++ effsA) := by
      simp [upload_body, afterRefresh, hb, hvl, hrs, hA]
    have hnr : Effect.refreshCall ∉ effsA := by
      intro hm
      rcases afterKeywords_effs env
          ⟨uid, some rd.access_token, some rt, uexp, true, uct, uci⟩ req v vid
          (resolveKeywords v.keywords_id env.kwDoc) with h1 | h1 | ⟨yt, t, d, tg, h1⟩
      all_goals rw [hA] at h1
      all_goals simp only [] at h1
      all_goals rw [h1] at hm
      all_goals simp at hm
    refine ⟨Effect.userTokenUpdate rd.access_token (env.now + rd.expires_in) :: effsA, ?_, ?_⟩
    · cases resA with
      | ok r => simp [upload_to_youtube, hub]
      | error e =>
        cases e with
        | httpExc c d => simp [upload_to_youtube, hub]
        | pyExc m => simp [upload_to_youtube, hub, handlerSeq_eq]
    · simp [hnr]
  · intro m hm
    have hrs : refreshStep env ⟨uid, uat, some rt, uexp, true, uct, uci⟩ =
        (Except.error (Exn.httpExc 401 ("Failed to refresh YouTube token: " ++ m)),
         [Effect.refreshCall]) := by
      simp [refreshStep, hm, hexp]
    have hub : upload_body env ⟨uid, uat, some rt, uexp, true, uct, uci⟩ vid =
        (Except.error (Exn.httpExc 401 ("Failed to refresh YouTube token: " ++ m)),
         [Effect.refreshCall]) := by
      simp [upload_body, hb, hvl, hrs]
    have hu : upload_to_youtube env ⟨uid, uat, some rt, uexp, true, uct, uci⟩ vid =
        (UploadOutcome.httpError 401 ("Failed to refresh YouTube token: " ++ m),
         [Effect.refreshCall]) := by
      simp [upload_to_youtube, hub]
    rw [hu]
    simp

/-- Concrete instance of upload_refresh_gate: expired token, failing refresh. -/
theorem upload_refresh_gate_witness :
    (({ id := "u1", youtube_access_token := some "at",
        youtube_refresh_token := some "rt", youtube_token_expiry := some 100,
        youtube_connected := true } : UserRecord).youtube_connected = true) ∧
    ((100 : Nat) < 200) ∧
    ((upload_to_youtube
      { now := 200, uploadDir := "./uploads", reqBody := Except.ok {},
        videoLookup := Except.ok (some { id := "v1", user_id := "u1", filename := "f.mp4" }),
        kwDoc := Except.ok none, refreshResp := Except.error "invalid_grant",
        fileExists := fun _ => true, uploadResp := Except.ok "yt1" }
      { id := "u1", youtube_access_token := some "at",
        youtube_refresh_token := some "rt", youtube_token_expiry := some 100,
        youtube_connected := true }
      "v1").1 = UploadOutcome.httpError 401
        ("Failed to refresh YouTube token: " ++ "invalid_grant") ∧
      Effect.providerUpload ∉ (upload_to_youtube
      { now := 200, uploadDir := "./uploads", reqBody := Except.ok {},
        videoLookup := Except.ok (some { id := "v1", user_id := "u1", filename := "f.mp4" }),
        kwDoc := Except.ok none, refreshResp := Except.error "invalid_grant",
        fileExists := fun _ => true, uploadResp := Except.ok "yt1" }
      { id := "u1", youtube_access_token := some "at",
        youtube_refresh_token := some "rt", youtube_token_expiry := some 100,
        youtube_connected := true }
      "v1").2) :=
  ⟨rfl, by decide,
   (upload_refresh_gate
      { now := 200, uploadDir := "./uploads", reqBody := Except.ok {},
        videoLookup := Except.ok (some { id := "v1", user_id := "u1", filename := "f.mp4" }),
        kwDoc := Except.ok none, refreshResp := Except.error "invalid_grant",
        fileExists := fun _ => true, uploadResp := Except.ok "yt1" }
      { id := "u1", youtube_access_token := some "at",
        youtube_refresh_token := some "rt", youtube_token_expiry := some 100,
        youtube_connected := true }
      "v1" {} { id := "v1", user_id := "u1", filename := "f.mp4" } "rt"
      rfl rfl rfl (by decide) rfl).2 "invalid_grant" rfl⟩

theorem refreshStep_no_sim (env : YtEnv) (u : UserRecord) :
    (((refreshStep env u).2).all fun e => !e.isSimWrite) = true := by
  unfold refreshStep
  repeat' split
  all_goals simp [Effect.isSimWrite]

theorem afterKeywords_no_sim (env : YtEnv) (u2 : UserRecord) (req : ReqBody)
    (video : VideoRecord) (vid : String) (kws : List KwEntry) :
    (((afterKeywords env u2 req video vid kws).2).all fun e => !e.isSimWrite) = true := by
  unfold afterKeywords
  repeat' split
  all_goals simp [Effect.isSimWrite]

/-- The try body of the upload handler never performs the simulated write. -/
theorem upload_body_no_sim (env : YtEnv) (u : UserRecord) (vid : String) :
    (((upload_body env u vid).2).all fun e => !e.isSimWrite) = true := by
  rcases hb : env.reqBody with m | req
  · simp [upload_body, hb]
  · by_cases hc : u.youtube_connected = false
    · simp [upload_body, hb, hc]
    · have hc2 : u.youtube_connected = true := by simpa using hc
      rcases hvl : env.videoLookup with m2 | ov
      · simp [upload_body, hb, hc2, hvl]
      · rcases ov with _ | v
        · simp [upload_body, hb, hc2, hvl]
        · rcases h0 : refreshStep env u with ⟨res0, effs0⟩
          have h1 : (effs0.all fun e => !e.isSimWrite) = true := by
            have h := refreshStep_no_sim env u
            rw [h0] at h
            exact h
          cases res0 with
          | error e =>
            have hub : upload_body env u vid = (Except.error e, effs0) := by
              simp [upload_body, hb, hc2, hvl, h0]
            rw [hub]
            exact h1
          | ok u2 =>
            rcases hA : afterKeywords env u2 req v vid
                (resolveKeywords v.keywords_id env.kwDoc) with ⟨resA, effsA⟩
            have h2 : (effsA.all fun e => !e.isSimWrite) = true := by
              have h := afterKeywords_no_sim env u2 req v vid
                (resolveKeywords v.keywords_id env.kwDoc)
              rw [hA] at h
              exact h
            have hub : upload_body env u vid = (resA, effs0 ++ effsA) := by
              simp [upload_body, afterRefresh, hb, hc2, hvl, h0, hA]
            rw [hub]
            simp only [List.all_append]
            simp [h1, h2]

/-- Claim C9: no execution of upload_to_youtube ever produces a result of the
dead simulated block or performs its database write: the raise at the top of
the except-Exception handler always exits before the simulated code that
follows it in the same suite. -/
theorem simulated_upload_unreachable (env : YtEnv) (u : UserRecord) (vid : String) :
    (upload_to_youtube env u vid).1.isSim = false ∧
    ((upload_to_youtube env u vid).2.all fun e => !e.isSimWrite) = true := by
  rcases hub : upload_body env u vid with ⟨res, effs⟩
  have heffs : (effs.all fun e => !e.isSimWrite) = true := by
    have h := upload_body_no_sim env u vid
    rw [hub] at h
    exact h
  cases res with
  | ok r => simp [upload_to_youtube, hub, UploadOutcome.isSim, heffs]
  | error e =>
    cases e with
    | httpExc c d => simp [upload_to_youtube, hub, UploadOutcome.isSim, heffs]
    | pyExc m =>
      have hu : upload_to_youtube env u vid =
          (UploadOutcome.httpError 500 ("Failed to upload to YouTube: " ++ m),
           effs ++ []) := by
        simp [upload_to_youtube, hub, handlerSeq_eq]
      rw [hu]
      simp [UploadOutcome.isSim, heffs]

/-- The description and tags actually submitted by the upload handler are the
ones computed at lines 229-233 from the caller input and the resolved
keywords. -/
theorem upload_submitted (env : YtEnv) (u : UserRecord) (vid : String)
    (req : ReqBody) (v : VideoRecord)
    (hb : env.reqBody = Except.ok req)
    (hvl : env.videoLookup = Except.ok (some v)) :
    (∀ kt, keywordText (resolveKeywords v.keywords_id env.kwDoc) = some kt →
      submittedDescription (upload_to_youtube env u vid)
        (pyOrStr req.description ("Video analyzed with SEO keywords: " ++ kt)))
    ∧ submittedTags (upload_to_youtube env u vid)
        (pyTrunc 30 (pyOrTags req.tags (resolveKeywords v.keywords_id env.kwDoc))) := by
  obtain ⟨hInv1, hInv2⟩ := upload_inversion env u vid req v hb hvl
  refine ⟨?_, ?_, ?_⟩
  · intro kt hkt
    constructor
    · intro r hr
      obtain ⟨u2, effs0, effsA, h0, hA⟩ := hInv1 r hr
      obtain ⟨hsome, hdesc, htags, heffs⟩ := afterKeywords_ok _ _ _ _ _ _ _ _ hA
      rw [hdesc, hkt]
      simp
    · intro yt t d2 tg hm
      obtain ⟨u2, effs0, r, effsA, h0, hA, hmem⟩ := hInv2 yt t d2 tg hm
      obtain ⟨hsome, hdesc, htags, heffs⟩ := afterKeywords_ok _ _ _ _ _ _ _ _ hA
      rw [heffs] at hmem
      simp at hmem
      obtain ⟨h1, h2, h3, h4⟩ := hmem
      rw [h3, hdesc, hkt]
      simp
  · intro r hr
    obtain ⟨u2, effs0, effsA, h0, hA⟩ := hInv1 r hr
    obtain ⟨hsome, hdesc, htags, heffs⟩ := afterKeywords_ok _ _ _ _ _ _ _ _ hA
    exact htags
  · intro yt t d2 tg hm
    obtain ⟨u2, effs0, r, effsA, h0, hA, hmem⟩ := hInv2 yt t d2 tg hm
    obtain ⟨hsome, hdesc, htags, heffs⟩ := afterKeywords_ok _ _ _ _ _ _ _ _ hA
    rw [heffs] at hmem
    simp at hmem
    obtain ⟨h1, h2, h3, h4⟩ := hmem
    rw [h4, htags]

/-- keywordText on a non-empty list of plain strings joins the first five. -/
theorem keywordText_strs (ks : List String) (hk : ks ≠ []) :
    keywordText (ks.map KwEntry.str) = some (String.intercalate ", " (ks.take 5)) := by
  unfold keywordText
  rw [if_neg (by simp [hk])]
  rw [show (List.map KwEntry.str ks).take 5 = (ks.take 5).map KwEntry.str from
    (List.map_take KwEntry.str ks 5).symm]
  rw [asStrs_map]
  rfl

/-- Claim C3 (counterexample): a connected user with a valid token, an existing
video with no keyword set, no caller-supplied description, an existing media
file and a successful provider call gets back the description
"Video analyzed with SEO keywords: SEO optimized content", which differs from
the literal "SEO optimized content" asserted by the claim: line 230 always
prefixes the synthesized text, even when keyword_text is the no-keyword
placeholder. -/
theorem upload_default_description_counterexample :
    (upload_to_youtube
      { now := 50, uploadDir := "./uploads", reqBody := Except.ok {},
        videoLookup := Except.ok (some { id := "v1", user_id := "u1", filename := "f.mp4" }),
        kwDoc := Except.ok none, refreshResp := Except.error "unused",
        fileExists := fun _ => true, uploadResp := Except.ok "yt1" }
      { id := "u1", youtube_access_token := some "at",
        youtube_refresh_token := some "rt", youtube_token_expiry := some 100,
        youtube_connected := true }
      "v1").1 =
    UploadOutcome.ok
      { message := "Video uploaded to YouTube successfully",
        video_id := "v1", youtube_video_id := "yt1",
        youtube_url := "https://www.youtube.com/watch?v=yt1",
        youtube_title := "Untitled Video",
        youtube_description := "Video analyzed with SEO keywords: SEO optimized content",
        youtube_tags := [] }
    ∧ ("Video analyzed with SEO keywords: SEO optimized content" : String)
        ≠ "SEO optimized content" :=
  ⟨rfl, by decide⟩

/-- Claim C3 (amended): for an upload call with a found video and no
caller-supplied description, the effective description submitted and returned
is "Video analyzed with SEO keywords: SEO optimized content" when no keywords
resolve, and "Video analyzed with SEO keywords: " followed by the first 5
keywords joined by ", " when keywords resolve. -/
theorem upload_description_amended (env : YtEnv) (u : UserRecord) (vid : String)
    (req : ReqBody) (v : VideoRecord)
    (hb : env.reqBody = Except.ok req)
    (hvl : env.videoLookup = Except.ok (some v))
    (hd : req.description = none) :
    (resolveKeywords v.keywords_id env.kwDoc = [] →
      submittedDescription (upload_to_youtube env u vid)
        "Video analyzed with SEO keywords: SEO optimized content")
    ∧ (∀ ks : List String, ks ≠ [] →
        resolveKeywords v.keywords_id env.kwDoc = List.map KwEntry.str ks →
      submittedDescription (upload_to_youtube env u vid)
        ("Video analyzed with SEO keywords: " ++ String.intercalate ", " (ks.take 5))) := by
  obtain ⟨hmain, _⟩ := upload_submitted env u vid req v hb hvl
  constructor
  · intro hkw
    have h := hmain "SEO optimized content" (by rw [hkw]; rfl)
    rw [hd] at h
    exact h
  · intro ks hks hkw
    have h := hmain (String.intercalate ", " (ks.take 5))
      (by rw [hkw]; exact keywordText_strs ks hks)
    rw [hd] at h
    exact h

/-- Concrete instance of upload_description_amended: no keywords resolve and
the computed description is the prefixed placeholder. -/
theorem upload_description_amended_witness :
    ((Except.ok { description := none : ReqBody } :
        Except String ReqBody) = Except.ok { description := none : ReqBody }) ∧
    resolveKeywords (none : Option String) (Except.ok none) = [] ∧
    submittedDescription
      (upload_to_youtube
        { now := 50, uploadDir := "./uploads", reqBody := Except.ok {},
          videoLookup := Except.ok (some { id := "v1", user_id := "u1", filename := "f.mp4" }),
          kwDoc := Except.ok none, refreshResp := Except.error "unused",
          fileExists := fun _ => true, uploadResp := Except.ok "yt1" }
        { id := "u1", youtube_access_token := some "at",
          youtube_refresh_token := some "rt", youtube_token_expiry := some 100,
          youtube_connected := true }
        "v1")
      "Video analyzed with SEO keywords: SEO optimized content" :=
  ⟨rfl, rfl,
   (upload_description_amended
      { now := 50, uploadDir := "./uploads", reqBody := Except.ok {},
        videoLookup := Except.ok (some { id := "v1", user_id := "u1", filename := "f.mp4" }),
        kwDoc := Except.ok none, refreshResp := Except.error "unused",
        fileExists := fun _ => true, uploadResp := Except.ok "yt1" }
      { id := "u1", youtube_access_token := some "at",
        youtube_refresh_token := some "rt", youtube_token_expiry := some 100,
        youtube_connected := true }
      "v1" {} { id := "v1", user_id := "u1", filename := "f.mp4" }
      rfl rfl rfl).1 rfl⟩

/-- Claim C4 (counterexample): a caller that supplies an explicit empty tags
list while two keywords resolve gets the keywords as effective tags, not the
supplied empty list: line 233 uses Python truthiness, so an empty caller list
falls back to the keywords. -/
theorem upload_tags_counterexample :
    (upload_to_youtube
      { now := 50, uploadDir := "./uploads",
        reqBody := Except.ok { tags := some [] },
        videoLookup := Except.ok (some
          { id := "v1", user_id := "u1", filename := "f.mp4",
            keywords_id := some "kid" }),
        kwDoc := Except.ok (some { keywords := [KwEntry.str "k1", KwEntry.str "k2"] }),
        refreshResp := Except.error "unused",
        fileExists := fun _ => true, uploadResp := Except.ok "yt1" }
      { id := "u1", youtube_access_token := some "at",
        youtube_refresh_token := some "rt", youtube_token_expiry := some 100,
        youtube_connected := true }
      "v1").1 =
    UploadOutcome.ok
      { message := "Video uploaded to YouTube successfully",
        video_id := "v1", youtube_video_id := "yt1",
        youtube_url := "https://www.youtube.com/watch?v=yt1",
        youtube_title := "Untitled Video",
        youtube_description := "Video analyzed with SEO keywords: k1, k2",
        youtube_tags := [KwEntry.str "k1", KwEntry.str "k2"] }
    ∧ [KwEntry.str "k1", KwEntry.str "k2"] ≠ ([] : List KwEntry) :=
  ⟨rfl, by decide⟩

/-- Claim C4 (amended): when the caller supplies no tags, or supplies an empty
tags list, the effective tags equal the resolved keyword list truncated to 30
entries; when the caller supplies a non-empty tags list, those exact tags are
used verbatim, truncated to 30 entries. -/
theorem upload_tags_amended (env : YtEnv) (u : UserRecord) (vid : String)
    (req : ReqBody) (v : VideoRecord)
    (hb : env.reqBody = Except.ok req)
    (hvl : env.videoLookup = Except.ok (some v)) :
    ((req.tags = none ∨ req.tags = some []) →
      submittedTags (upload_to_youtube env u vid)
        ((resolveKeywords v.keywords_id env.kwDoc).take 30))
    ∧ (∀ ts : List String, req.tags = some ts → ts ≠ [] →
      submittedTags (upload_to_youtube env u vid)
        ((List.map KwEntry.str ts).take 30)) := by
  obtain ⟨_, htags⟩ := upload_submitted env u vid req v hb hvl
  constructor
  · intro ht
    have he : pyTrunc 30 (pyOrTags req.tags (resolveKeywords v.keywords_id env.kwDoc))
        = (resolveKeywords v.keywords_id env.kwDoc).take 30 := by
      rcases ht with ht | ht
      all_goals rw [ht]
      all_goals simp [pyOrTags, pyTrunc_eq_take]
    rw [he] at htags
    exact htags
  · intro ts hts hne
    have he : pyTrunc 30 (pyOrTags req.tags (resolveKeywords v.keywords_id env.kwDoc))
        = (List.map KwEntry.str ts).take 30 := by
      rw [hts]
      simp [pyOrTags, hne, pyTrunc_eq_take]
    rw [he] at htags
    exact htags

/-- Concrete instance of upload_tags_amended: no caller tags, two keywords. -/
theorem upload_tags_amended_witness :
    (({ tags := none } : ReqBody).tags = none ∨
      ({ tags := none } : ReqBody).tags = some []) ∧
    submittedTags
      (upload_to_youtube
        { now := 50, uploadDir := "./uploads", reqBody := Except.ok {},
          videoLookup := Except.ok (some
            { id := "v1", user_id := "u1", filename := "f.mp4",
              keywords_id := some "kid" }),
          kwDoc := Except.ok (some { keywords := [KwEntry.str "k1", KwEntry.str "k2"] }),
          refreshResp := Except.error "unused",
          fileExists := fun _ => true, uploadResp := Except.ok "yt1" }
        { id := "u1", youtube_access_token := some "at",
          youtube_refresh_token := some "rt", youtube_token_expiry := some 100,
          youtube_connected := true }
        "v1")
      ((resolveKeywords (some "kid")
        (Except.ok (some { keywords := [KwEntry.str "k1", KwEntry.str "k2"] }))).take 30) :=
  ⟨Or.inl rfl,
   (upload_tags_amended
      { now := 50, uploadDir := "./uploads", reqBody := Except.ok {},
        videoLookup := Except.ok (some
          { id := "v1", user_id := "u1", filename := "f.mp4",
            keywords_id := some "kid" }),
        kwDoc := Except.ok (some { keywords := [KwEntry.str "k1", KwEntry.str "k2"] }),
        refreshResp := Except.error "unused",
        fileExists := fun _ => true, uploadResp := Except.ok "yt1" }
      { id := "u1", youtube_access_token := some "at",
        youtube_refresh_token := some "rt", youtube_token_expiry := some 100,
        youtube_connected := true }
      "v1" {}
      { id := "v1", user_id := "u1", filename := "f.mp4", keywords_id := some "kid" }
      rfl rfl).1 (Or.inl rfl)⟩

theorem resolveKeywords_lookup_error (kid : Option String) (m : String) :
    resolveKeywords kid (Except.error m) = [] := by
  cases kid with
  | none => rfl
  | some k =>
    by_cases h : k = ""
    all_goals simp [resolveKeywords, h]

theorem resolveKeywords_lookup_none (kid : Option String) :
    resolveKeywords kid (Except.ok none) = [] := by
  cases kid with
  | none => rfl
  | some k =>
    by_cases h : k = ""
    all_goals simp [resolveKeywords, h]

/-- Claim C5: both legacy keyword shapes — plain strings, or objects carrying
a "keyword" field with the same strings — resolve to the same flat string
sequence in the original order; a failed lookup resolves to the empty list;
and a resolution failure does not fail the upload: the handler behaves exactly
as when no keyword document exists. -/
theorem keyword_normalization (ss : List String) (kid m : String)
    (hkid : kid ≠ "") :
    resolveKeywords (some kid) (Except.ok (some { keywords := ss.map KwEntry.str }))
      = ss.map KwEntry.str
    ∧ resolveKeywords (some kid) (Except.ok (some { keywords := ss.map KwEntry.obj }))
      = ss.map KwEntry.str
    ∧ resolveKeywords (some kid) (Except.error m) = []
    ∧ ∀ (env : YtEnv) (u : UserRecord) (vid : String),
        upload_to_youtube { env with kwDoc := Except.error m } u vid
          = upload_to_youtube { env with kwDoc := Except.ok none } u vid := by
  refine ⟨?_, ?_, resolveKeywords_lookup_error (some kid) m, ?_⟩
  · cases ss with
    | nil => simp [resolveKeywords, hkid]
    | cons a rest => simp [resolveKeywords, hkid]
  · cases ss with
    | nil => simp [resolveKeywords, hkid]
    | cons a rest =>
      simp only [List.map_cons]
      simp [resolveKeywords, hkid,
        show extractObjKeywords (KwEntry.obj a :: rest.map KwEntry.obj)
            = some (a :: rest) from extractObjKeywords_map (a :: rest)]
  · intro env u vid
    obtain ⟨n, dir, rb, vl, kd, rr, fe, ur, rwk⟩ := env
    unfold upload_to_youtube upload_body afterRefresh afterKeywords refreshStep
      handlerSeq handlerRaise simulatedBlock
    dsimp only
    simp only [resolveKeywords_lookup_error, resolveKeywords_lookup_none]

/-- Concrete instance of keyword_normalization on a two-element keyword set. -/
theorem keyword_normalization_witness :
    ("kid1" : String) ≠ "" ∧
    resolveKeywords (some "kid1")
      (Except.ok (some { keywords := ["alpha", "beta"].map KwEntry.str }))
      = ["alpha", "beta"].map KwEntry.str ∧
    resolveKeywords (some "kid1")
      (Except.ok (some { keywords := ["alpha", "beta"].map KwEntry.obj }))
      = ["alpha", "beta"].map KwEntry.str :=
  ⟨by decide,
   (keyword_normalization ["alpha", "beta"] "kid1" "lookup raised" (by decide)).1,
   (keyword_normalization ["alpha", "beta"] "kid1" "lookup raised" (by decide)).2.1⟩

/-- Claim C6: when the media file is missing at the configured storage root
plus the stored filename, an upload call that survives the earlier checks
fails with the 404 file-not-found response and the video record is left
unmutated: no upload-outcome field is written. -/
theorem upload_missing_file (env : YtEnv) (u : UserRecord) (vid : String)
    (req : ReqBody) (v : VideoRecord) (kt : String)
    (hconn : u.youtube_connected = true)
    (hb : env.reqBody = Except.ok req)
    (hvl : env.videoLookup = Except.ok (some v))
    (hkt : keywordText (resolveKeywords v.keywords_id env.kwDoc) = some kt)
    (hfile : env.fileExists (pyPathJoin env.uploadDir v.filename) = false)
    (href : u.youtube_token_expiry.getD 0 < env.now →
      u.youtube_refresh_token ≠ none ∧ ∃ rd, env.refreshResp = Except.ok rd) :
    (upload_to_youtube env u vid).1 = UploadOutcome.httpError 404 "Video file not found"
    ∧ applyVideoEffects (upload_to_youtube env u vid).2 v = v := by
  have hAfk : ∀ u2 : UserRecord,
      afterKeywords env u2 req v vid (resolveKeywords v.keywords_id env.kwDoc)
        = (Except.error (Exn.httpExc 404 "Video file not found"), []) := by
    intro u2
    unfold afterKeywords
    rw [hkt]
    simp [hfile]
  by_cases hx : u.youtube_token_expiry.getD 0 < env.now
  · obtain ⟨hrtne, rd, hrd⟩ := href hx
    obtain ⟨rt, hrt⟩ := Option.ne_none_iff_exists'.mp hrtne
    have hrs : refreshStep env u =
        (Except.ok { u with youtube_access_token := some rd.access_token },
         [Effect.refreshCall,
          Effect.userTokenUpdate rd.access_token (env.now + rd.expires_in)]) := by
      simp [refreshStep, hrt, hrd, hx]
    have hu : upload_to_youtube env u vid =
        (UploadOutcome.httpError 404 "Video file not found",
         [Effect.refreshCall,
          Effect.userTokenUpdate rd.access_token (env.now + rd.expires_in)]) := by
      simp [upload_to_youtube, upload_body, afterRefresh, hb, hconn, hvl, hrs, hAfk]
    rw [hu]
    exact ⟨rfl, by simp [applyVideoEffects, applyVideoEffect]⟩
  · have hrs : refreshStep env u = (Except.ok u, []) := by
      simp [refreshStep, hx]
    have hu : upload_to_youtube env u vid =
        (UploadOutcome.httpError 404 "Video file not found", []) := by
      simp [upload_to_youtube, upload_body, afterRefresh, hb, hconn, hvl, hrs, hAfk]
    rw [hu]
    exact ⟨rfl, rfl⟩

/-- Concrete instance of upload_missing_file: valid token, absent file. -/
theorem upload_missing_file_witness :
    (({ id := "u1", youtube_access_token := some "at",
        youtube_refresh_token := some "rt", youtube_token_expiry := some 100,
        youtube_connected := true } : UserRecord).youtube_connected = true) ∧
    (upload_to_youtube
      { now := 50, uploadDir := "./uploads", reqBody := Except.ok {},
        videoLookup := Except.ok (some { id := "v1", user_id := "u1", filename := "f.mp4" }),
        kwDoc := Except.ok none, refreshResp := Except.error "unused",
        fileExists := fun _ => false, uploadResp := Except.ok "yt1" }
      { id := "u1", youtube_access_token := some "at",
        youtube_refresh_token := some "rt", youtube_token_expiry := some 100,
        youtube_connected := true }
      "v1").1 = UploadOutcome.httpError 404 "Video file not found" ∧
    applyVideoEffects
      (upload_to_youtube
        { now := 50, uploadDir := "./uploads", reqBody := Except.ok {},
          videoLookup := Except.ok (some { id := "v1", user_id := "u1", filename := "f.mp4" }),
          kwDoc := Except.ok none, refreshResp := Except.error "unused",
          fileExists := fun _ => false, uploadResp := Except.ok "yt1" }
        { id := "u1", youtube_access_token := some "at",
          youtube_refresh_token := some "rt", youtube_token_expiry := some 100,
          youtube_connected := true }
        "v1").2
      { id := "v1", user_id := "u1", filename := "f.mp4" }
      = { id := "v1", user_id := "u1", filename := "f.mp4" } := by
  refine ⟨rfl, ?_⟩
  exact upload_missing_file
    { now := 50, uploadDir := "./uploads", reqBody := Except.ok {},
      videoLookup := Except.ok (some { id := "v1", user_id := "u1", filename := "f.mp4" }),
      kwDoc := Except.ok none, refreshResp := Except.error "unused",
      fileExists := fun _ => false, uploadResp := Except.ok "yt1" }
    { id := "u1", youtube_access_token := some "at",
      youtube_refresh_token := some "rt", youtube_token_expiry := some 100,
      youtube_connected := true }
    "v1" {} { id := "v1", user_id := "u1", filename := "f.mp4" }
    "SEO optimized content" rfl rfl rfl rfl rfl
    (fun h => absurd h (by decide))

/-- Claim C7 (counterexample): after a successful code-for-token exchange, a
raised exception during the channel-identity lookup makes the callback return
a failure payload — the exception is caught by the handler of line 125, which
answers success false — even though the token write had already persisted the
connection. The claim asserts the callback still returns success. -/
theorem callback_channel_counterexample :
    (youtube_callback (some "authcode") (some "u1") none
      { id := "u1" }
      { now := 10, tokenResp := Except.ok { access_token := "tok", expires_in := 60 },
        channelResp := ChannelOutcome.raised "connection reset" }).1.success = false
    ∧ (applyUserEffects
        (youtube_callback (some "authcode") (some "u1") none
          { id := "u1" }
          { now := 10, tokenResp := Except.ok { access_token := "tok", expires_in := 60 },
            channelResp := ChannelOutcome.raised "connection reset" }).2
        { id := "u1" }).youtube_connected = true :=
  ⟨rfl, rfl⟩

/-- Claim C7 (amended): after a successful exchange, a non-2xx channel-lookup
response leaves the callback successful and the persisted credential connected;
but a raised exception during the lookup makes the callback return success
false, although the persisted credential record still ends up connected. -/
theorem callback_channel_amended (code error : Option String) (u : UserRecord)
    (env : CallbackEnv) (t : TokenResp)
    (herr : pyTruthyStr error = false)
    (hcode : pyTruthyStr code = true)
    (hid : u.id ≠ "")
    (ht : env.tokenResp = Except.ok t) :
    (∀ c items, env.channelResp = ChannelOutcome.status c items → c ≠ 200 →
      (youtube_callback code (some u.id) error u env).1.success = true ∧
      (applyUserEffects (youtube_callback code (some u.id) error u env).2 u).youtube_connected
        = true)
    ∧ (∀ m2, env.channelResp = ChannelOutcome.raised m2 →
      (youtube_callback code (some u.id) error u env).1.success = false ∧
      (applyUserEffects (youtube_callback code (some u.id) error u env).2 u).youtube_connected
        = true) := by
  have hst : pyTruthyStr (some u.id) = true := by
    simp [pyTruthyStr, hid]
  constructor
  · intro c items hch hc
    unfold youtube_callback
    rw [herr, hcode, hst, ht, hch]
    simp [hc, applyUserEffects, applyUserEffect]
  · intro m2 hch
    unfold youtube_callback
    rw [herr, hcode, hst, ht, hch]
    simp [applyUserEffects, applyUserEffect]

/-- Concrete instance of callback_channel_amended: a 503 channel response. -/
theorem callback_channel_amended_witness :
    pyTruthyStr (none : Option String) = false ∧
    pyTruthyStr (some "authcode") = true ∧
    ("u1" : String) ≠ "" ∧
    (youtube_callback (some "authcode") (some "u1") none
      { id := "u1" }
      { now := 10, tokenResp := Except.ok { access_token := "tok", expires_in := 60 },
        channelResp := ChannelOutcome.status 503 [] }).1.success = true ∧
    (applyUserEffects
      (youtube_callback (some "authcode") (some "u1") none
        { id := "u1" }
        { now := 10, tokenResp := Except.ok { access_token := "tok", expires_in := 60 },
          channelResp := ChannelOutcome.status 503 [] }).2
      { id := "u1" }).youtube_connected = true :=
  ⟨rfl, by decide, by decide,
   (callback_channel_amended (some "authcode") none { id := "u1" }
      { now := 10, tokenResp := Except.ok { access_token := "tok", expires_in := 60 },
        channelResp := ChannelOutcome.status 503 [] }
      { access_token := "tok", expires_in := 60 }
      rfl (by decide) (by decide) rfl).1 503 [] rfl (by decide)⟩

theorem refresh_youtube_token_effs (env : StatusEnv) (u : UserRecord) :
    (refresh_youtube_token env u).2 = [] ∨
    ∃ a x, (refresh_youtube_token env u).2 = [Effect.userTokenUpdate a x] := by
  unfold refresh_youtube_token
  repeat' split
  all_goals simp

/-- The status endpoint writes nothing beyond what the silent refresh wrote. -/
theorem youtube_status_trace (env : StatusEnv) (u : UserRecord) :
    (youtube_status env u).2 = (refresh_youtube_token env u).2 ∨
    (youtube_status env u).2 = [] := by
  unfold youtube_status
  repeat' split
  all_goals simp_all
  all_goals split
  all_goals simp_all

/-- Claim C8: when a connected user with a truthy expired token and a truthy
refresh token gets a failed silent refresh, the status response reports
connected false while the status call performs no database write at all; and
no execution of youtube_status ever changes the stored youtube_connected flag. -/
theorem status_failed_refresh (env : StatusEnv) (u : UserRecord) (e : Nat)
    (r m : String)
    (hconn : u.youtube_connected = true)
    (hexp : u.youtube_token_expiry = some e) (he : e ≠ 0) (hnow : e < env.now)
    (hrt : u.youtube_refresh_token = some r) (hr : r ≠ "")
    (hfail : env.refreshResp = Except.error m) :
    (youtube_status env u).1.connected = false
    ∧ (youtube_status env u).2 = []
    ∧ ∀ (env2 : StatusEnv) (u2 : UserRecord),
        (applyUserEffects (youtube_status env2 u2).2 u2).youtube_connected
          = u2.youtube_connected := by
  have hrf : refresh_youtube_token env u = (none, []) := by
    simp [refresh_youtube_token, hrt, hr, hfail]
  have hys : youtube_status env u = ({ connected := false, channel_title := "" }, []) := by
    unfold youtube_status
    rw [hexp]
    simp [hconn, he, hnow, pyTruthyStr, hrt, hr, hrf]
  rw [hys]
  refine ⟨rfl, rfl, ?_⟩
  intro env2 u2
  have hgoal : ∀ l, (l = [] ∨ ∃ a x, l = [Effect.userTokenUpdate a x]) →
      (applyUserEffects l u2).youtube_connected = u2.youtube_connected := by
    rintro l (rfl | ⟨a, x, rfl⟩)
    · rfl
    · rfl
  rcases youtube_status_trace env2 u2 with h | h
  · rw [h]
    exact hgoal _ (refresh_youtube_token_effs env2 u2)
  · rw [h]
    exact hgoal [] (Or.inl rfl)

/-- Concrete instance of status_failed_refresh. -/
theorem status_failed_refresh_witness :
    (({ id := "u1", youtube_access_token := some "at",
        youtube_refresh_token := some "rt", youtube_token_expiry := some 100,
        youtube_connected := true,
        youtube_channel_title := some "My Channel" } : UserRecord).youtube_connected
      = true) ∧
    ((100 : Nat) ≠ 0) ∧ ((100 : Nat) < 200) ∧
    (youtube_status { now := 200, refreshResp := Except.error "invalid_grant" }
      { id := "u1", youtube_access_token := some "at",
        youtube_refresh_token := some "rt", youtube_token_expiry := some 100,
        youtube_connected := true,
        youtube_channel_title := some "My Channel" }).1.connected = false ∧
    (youtube_status { now := 200, refreshResp := Except.error "invalid_grant" }
      { id := "u1", youtube_access_token := some "at",
        youtube_refresh_token := some "rt", youtube_token_expiry := some 100,
        youtube_connected := true,
        youtube_channel_title := some "My Channel" }).2 = [] := by
  have h := status_failed_refresh
    { now := 200, refreshResp := Except.error "invalid_grant" }
    { id := "u1", youtube_access_token := some "at",
      youtube_refresh_token := some "rt", youtube_token_expiry := some 100,
      youtube_connected := true,
      youtube_channel_title := some "My Channel" }
    100 "rt" "invalid_grant"
    rfl rfl (by decide) (by decide) rfl (by decide) rfl
  exact ⟨rfl, by decide, by decide, h.1, h.2.1⟩

/-- The wrapper of the upload handler never adds effects beyond the try body:
the only handler that runs raises before reaching any statement with a write. -/
theorem upload_trace_eq (env : YtEnv) (u : UserRecord) (vid : String) :
    (upload_to_youtube env u vid).2 = (upload_body env u vid).2 := by
  rcases hub : upload_body env u vid with ⟨res, effs⟩
  cases res with
  | ok r => simp [upload_to_youtube, hub]
  | error e =>
    cases e with
    | httpExc c d => simp [upload_to_youtube, hub]
    | pyExc m => simp [upload_to_youtube, hub, handlerSeq_eq]

/-- Claim C10: a credential record whose stored expiry reads as the default 0
(missing or stored falsy) is treated as expired by both upload handlers: with
a refresh token present both attempt the refresh request; with no refresh
token both fail with the 401 failed-refresh error — the KeyError of line
184/475 is caught by the refresh except clause — and the provider upload is
never invoked. -/
theorem missing_expiry_treated_expired (env : YtEnv) (u : UserRecord)
    (vid : String) (req : ReqBody) (v : VideoRecord)
    (hconn : u.youtube_connected = true)
    (hb : env.reqBody = Except.ok req)
    (hvl : env.videoLookup = Except.ok (some v))
    (hexp : u.youtube_token_expiry.getD 0 = 0)
    (hnow : 0 < env.now) :
    (u.youtube_refresh_token ≠ none →
      Effect.refreshCall ∈ (upload_to_youtube env u vid).2 ∧
      Effect.refreshCall ∈ (get_youtube_upload_url env u vid).2)
    ∧ (u.youtube_refresh_token = none →
      (upload_to_youtube env u vid).1 = UploadOutcome.httpError 401
        "Failed to refresh YouTube token: KeyError: youtube_refresh_token" ∧
      (get_youtube_upload_url env u vid).1 = RedirectOutcome.httpError 401
        "Failed to refresh YouTube token: KeyError: youtube_refresh_token" ∧
      Effect.providerUpload ∉ (upload_to_youtube env u vid).2) := by
  obtain ⟨uid, uat, urt, uexp, ucon, uct, uci⟩ := u
  simp only at hconn hexp
  subst hconn
  have hx : uexp.getD 0 < env.now := by
    rw [hexp]
    exact hnow
  constructor
  · intro hne
    cases hurt : urt with
    | none =>
      subst hurt
      exact absurd rfl hne
    | some rt =>
      subst hurt
      have hhead : ∃ rest, (refreshStep env ⟨uid, uat, some rt, uexp, true, uct, uci⟩).2
          = Effect.refreshCall :: rest := by
        cases hrr : env.refreshResp with
        | error m2 => exact ⟨[], by simp [refreshStep, hx, hrr]⟩
        | ok rd =>
          exact ⟨[Effect.userTokenUpdate rd.access_token (env.now + rd.expires_in)],
            by simp [refreshStep, hx, hrr]⟩
      obtain ⟨rest, hhead⟩ := hhead
      rcases h0 : refreshStep env ⟨uid, uat, some rt, uexp, true, uct, uci⟩ with ⟨res0, effs0⟩
      rw [h0] at hhead
      simp only [] at hhead
      constructor
      · rw [upload_trace_eq]
        cases res0 with
        | error e =>
          have hub : (upload_body env ⟨uid, uat, some rt, uexp, true, uct, uci⟩ vid).2
              = effs0 := by
            simp [upload_body, hb, hvl, h0]
          rw [hub, hhead]
          simp
        | ok u2 =>
          rcases hA : afterRefresh env u2 req v vid with ⟨resA, effsA⟩
          have hub : (upload_body env ⟨uid, uat, some rt, uexp, true, uct, uci⟩ vid).2
              = effs0 ++ effsA := by
            simp [upload_body, hb, hvl, h0, hA]
          rw [hub, hhead]
          simp
      · cases res0 with
        | error e =>
          have hrb : (redirect_body env ⟨uid, uat, some rt, uexp, true, uct, uci⟩ vid).2
              = effs0 := by
            simp [redirect_body, hb, hvl, h0]
          have : Effect.refreshCall ∈
              (redirect_body env ⟨uid, uat, some rt, uexp, true, uct, uci⟩ vid).2 := by
            rw [hrb, hhead]
            simp
          rcases hrb2 : redirect_body env ⟨uid, uat, some rt, uexp, true, uct, uci⟩ vid
            with ⟨resR, effsR⟩
          rw [hrb2] at this
          cases resR with
          | ok r2 => simpa [get_youtube_upload_url, hrb2] using this
          | error e2 =>
            cases e2 with
            | httpExc c d => simpa [get_youtube_upload_url, hrb2] using this
            | pyExc m2 => simpa [get_youtube_upload_url, hrb2] using this
        | ok u2 =>
          have hrb : (redirect_body env ⟨uid, uat, some rt, uexp, true, uct, uci⟩ vid).2
              = effs0 ++ (if env.redirectWriteOk then [Effect.videoRedirectUpdate] else []) := by
            simp [redirect_body, hb, hvl, h0]
          have : Effect.refreshCall ∈
              (redirect_body env ⟨uid, uat, some rt, uexp, true, uct, uci⟩ vid).2 := by
            rw [hrb, hhead]
            simp
          rcases hrb2 : redirect_body env ⟨uid, uat, some rt, uexp, true, uct, uci⟩ vid
            with ⟨resR, effsR⟩
          rw [hrb2] at this
          cases resR with
          | ok r2 => simpa [get_youtube_upload_url, hrb2] using this
          | error e2 =>
            cases e2 with
            | httpExc c d => simpa [get_youtube_upload_url, hrb2] using this
            | pyExc m2 => simpa [get_youtube_upload_url, hrb2] using this
  · intro hrt
    subst hrt
    have hrs : refreshStep env ⟨uid, uat, none, uexp, true, uct, uci⟩ =
        (Except.error (Exn.httpExc 401
          "Failed to refresh YouTube token: KeyError: youtube_refresh_token"), []) := by
      simp [refreshStep, hx]
    have hub : upload_body env ⟨uid, uat, none, uexp, true, uct, uci⟩ vid =
        (Except.error (Exn.httpExc 401
          "Failed to refresh YouTube token: KeyError: youtube_refresh_token"), []) := by
      simp [upload_body, hb, hvl, hrs]
    have hrb : redirect_body env ⟨uid, uat, none, uexp, true, uct, uci⟩ vid =
        (Except.error (Exn.httpExc 401
          "Failed to refresh YouTube token: KeyError: youtube_refresh_token"), []) := by
      simp [redirect_body, hb, hvl, hrs]
    refine ⟨by simp [upload_to_youtube, hub], by simp [get_youtube_upload_url, hrb], ?_⟩
    rw [upload_trace_eq, hub]
    simp

/-- Concrete instance of missing_expiry_treated_expired: a connected record
with no stored expiry and no refresh token. -/
theorem missing_expiry_treated_expired_witness :
    (({ id := "u1", youtube_access_token := some "at",
        youtube_connected := true } : UserRecord).youtube_connected = true) ∧
    (({ id := "u1", youtube_access_token := some "at",
        youtube_connected := true } : UserRecord).youtube_token_expiry.getD 0 = 0) ∧
    ((0 : Nat) < 50) ∧
    (upload_to_youtube
      { now := 50, uploadDir := "./uploads", reqBody := Except.ok {},
        videoLookup := Except.ok (some { id := "v1", user_id := "u1", filename := "f.mp4" }),
        kwDoc := Except.ok none, refreshResp := Except.error "unused",
        fileExists := fun _ => true, uploadResp := Except.ok "yt1" }
      { id := "u1", youtube_access_token := some "at", youtube_connected := true }
      "v1").1 = UploadOutcome.httpError 401
        "Failed to refresh YouTube token: KeyError: youtube_refresh_token" ∧
    (get_youtube_upload_url
      { now := 50, uploadDir := "./uploads", reqBody := Except.ok {},
        videoLookup := Except.ok (some { id := "v1", user_id := "u1", filename := "f.mp4" }),
        kwDoc := Except.ok none, refreshResp := Except.error "unused",
        fileExists := fun _ => true, uploadResp := Except.ok "yt1" }
      { id := "u1", youtube_access_token := some "at", youtube_connected := true }
      "v1").1 = RedirectOutcome.httpError 401
        "Failed to refresh YouTube token: KeyError: youtube_refresh_token" := by
  have h := (missing_expiry_treated_expired
    { now := 50, uploadDir := "./uploads", reqBody := Except.ok {},
      videoLookup := Except.ok (some { id := "v1", user_id := "u1", filename := "f.mp4" }),
      kwDoc := Except.ok none, refreshResp := Except.error "unused",
      fileExists := fun _ => true, uploadResp := Except.ok "yt1" }
    { id := "u1", youtube_access_token := some "at", youtube_connected := true }
    "v1" {} { id := "v1", user_id := "u1", filename := "f.mp4" }
    rfl rfl rfl rfl (by decide)).2 rfl
  exact ⟨rfl, rfl, by decide, h.1, h.2.1⟩

end YtRoutes
